import Mathlib

/-!
Shallow embedding of the `notification` package (`notif/notificator.py` and
`notif/fail_decorator.py`): the shared retry routine `_send_notification`,
the five concrete channels, construction-time library checks, the error
formatter `_parse_error`, and the `notification_on_fail` wrapper.

Transports are modelled by a trace semantics: a `behavior` function gives,
for the n-th transport invocation of a run, either success (`none`) or a
raised Python exception (`some e`), where an exception carries its type
name (`kind`) and message.  A `RunState` records the payloads passed to
`_sending_method`, the warnings emitted via `warnings.warn`, and the sleep
durations passed to `time.sleep`, in order.
-/

namespace Notif

/-- A raised Python exception, identified by the name of its type and its
message. -/
structure PyError where
  kind : String
  msg : String
deriving DecidableEq

/-- Observable trace of one or more sends: payloads handed to the bound
transport call, warnings emitted, sleep durations requested. -/
structure RunState (P : Type) where
  calls : List P
  warnings : List String
  sleeps : List Nat
deriving DecidableEq

def RunState.empty {P : Type} : RunState P := ⟨[], [], []⟩

/-- The first warning text of `Notificator._send_notification`:
"Error when trying to send notification. Will retry in {} seconds."
formatted with `on_error_sleep_time`. -/
def firstWarning (on_error_sleep_time : Nat) : String :=
  "Error when trying to send notification. Will retry in " ++
    toString on_error_sleep_time ++ " seconds."

/-- The second warning text of `Notificator._send_notification`. -/
def secondWarning : String :=
  "Second error when trying to send notification, will abort sending message."

/-- The state of the abstract base class `Notificator` that
`_send_notification` reads: the configured sleep duration and the
designated transient error type (`_raised_error_type`), identified by its
type name. -/
structure Notificator where
  on_error_sleep_time : Nat
  raised_error_type : String
deriving DecidableEq

/-- Embedding of `Notificator._send_notification` (notificator.py lines
54-66).  It invokes the bound transport once; if that raises the designated
error type it warns, sleeps, and retries exactly once; a second designated
failure is downgraded to a second warning; any other raised error escapes.
Returns the updated trace and the escaping exception, if any. -/
def Notificator.send_notification_impl {P : Type} (nf : Notificator) (payload : P)
    (behavior : Nat → Option PyError) (st : RunState P) : RunState P × Option PyError :=
  match behavior st.calls.length with
  | none => ({ st with calls := st.calls ++ [payload] }, none)
  | some e =>
    let st1 : RunState P := { st with calls := st.calls ++ [payload] }
    if e.kind = nf.raised_error_type then
      let st2 : RunState P :=
        { st1 with
          warnings := st1.warnings ++ [firstWarning nf.on_error_sleep_time],
          sleeps := st1.sleeps ++ [nf.on_error_sleep_time] }
      match behavior st2.calls.length with
      | none => ({ st2 with calls := st2.calls ++ [payload] }, none)
      | some e2 =>
        let st3 : RunState P := { st2 with calls := st2.calls ++ [payload] }
        if e2.kind = nf.raised_error_type then
          ({ st3 with warnings := st3.warnings ++ [secondWarning] }, none)
        else
          (st3, some e2)
    else
      (st1, some e)

/-- Helper: a transport invocation that succeeds appends one call to the
trace and `_send_notification` returns normally. -/
theorem send_impl_ok {P : Type} (nf : Notificator) (payload : P)
    (behavior : Nat → Option PyError) (st : RunState P)
    (h : behavior st.calls.length = none) :
    nf.send_notification_impl payload behavior st =
      ({ st with calls := st.calls ++ [payload] }, none) := by
  simp [Notificator.send_notification_impl, h]

/-! ### JSON serialisation used by the webhook channels

`json.dumps({"text": message})` / `json.dumps({"content": message})` with
CPython's defaults: item separator `": "`, `ensure_ascii=True`. -/

/-- One lowercase hexadecimal digit. -/
def hexDigitChar (n : Nat) : Char :=
  if n < 10 then Char.ofNat (48 + n) else Char.ofNat (97 + (n - 10))

/-- A JSON `\uXXXX` escape (four lowercase hex digits). -/
def uEscape (n : Nat) : String :=
  "\\u" ++ String.mk [hexDigitChar (n / 4096 % 16), hexDigitChar (n / 256 % 16),
    hexDigitChar (n / 16 % 16), hexDigitChar (n % 16)]

/-- How CPython's `json.dumps` (with `ensure_ascii=True`) renders one
character inside a string literal. -/
def json_escape_char (c : Char) : String :=
  if c = '\"' then "\\\""
  else if c = '\\' then "\\\\"
  else if c = '\n' then "\\n"
  else if c = '\r' then "\\r"
  else if c = '\t' then "\\t"
  else if c.toNat = 8 then "\\b"
  else if c.toNat = 12 then "\\f"
  else if c.toNat < 32 then uEscape c.toNat
  else if c.toNat < 128 then String.singleton c
  else if c.toNat ≤ 65535 then uEscape c.toNat
  else
    let v := c.toNat - 65536
    uEscape (55296 + v / 1024) ++ uEscape (56320 + v % 1024)

def json_escape (s : String) : String :=
  String.join (s.toList.map json_escape_char)

/-- `json.dumps` of a one-entry dict mapping `key` to the string `value`. -/
def json_dumps_text (key value : String) : String :=
  "\x7b\"" ++ key ++ "\": \"" ++ json_escape value ++ "\"\x7d"

/-! ### Concrete channels -/

/-- The keyword arguments `SlackNotificator`/`DiscordNotificator` store in
`_sending_payload` for `requests.post`. -/
structure HttpPostPayload where
  url : String
  data : String
  headers : List (String × String)
deriving DecidableEq

/-- The keyword arguments `ChannelNotificator`/`TeamsNotificator` store in
`_sending_payload` (a single `message` entry). -/
structure MessagePayload where
  message : String
deriving DecidableEq

/-- The keyword arguments `EmailNotificator` stores in `_sending_payload`
for `smtp_server.sendmail`. -/
structure EmailPayload where
  from_addr : String
  to_addrs : String
  msg : String
deriving DecidableEq

structure SlackNotificator where
  webhook_url : String
  on_error_sleep_time : Nat := 120
deriving DecidableEq

def SlackNotificator.headers : List (String × String) :=
  [("content-type", "application/json")]

def SlackNotificator.default_subject_message : String :=
  "Python script Slack notification"

/-- `SlackNotificator._format_subject`: Markdown bold plus a line break. -/
def SlackNotificator.format_subject (subject_message : String) : String :=
  "*" ++ subject_message ++ "*\n"

/-- Base-class state of a `SlackNotificator`: the default transient error
type set by `Notificator.__init__` is `requests.exceptions.HTTPError`. -/
def SlackNotificator.toNotificator (s : SlackNotificator) : Notificator :=
  ⟨s.on_error_sleep_time, "HTTPError"⟩

/-- The first three lines of `SlackNotificator.send_notification`: resolve
the default subject, decorate it, and prefix it to the message. -/
def SlackNotificator.formatted_message (message : String) (subject : Option String) : String :=
  let subject := match subject with
    | some s => s
    | none => SlackNotificator.default_subject_message
  let subject := SlackNotificator.format_subject subject
  subject ++ message

/-- The `_sending_payload` dict built by `SlackNotificator.send_notification`. -/
def SlackNotificator.payload_of (s : SlackNotificator) (message : String)
    (subject : Option String) : HttpPostPayload :=
  { url := s.webhook_url,
    data := json_dumps_text "text" (SlackNotificator.formatted_message message subject),
    headers := SlackNotificator.headers }

/-- `SlackNotificator.send_notification` (notificator.py lines 151-171). -/
def SlackNotificator.send_notification (s : SlackNotificator) (message : String)
    (subject : Option String) (behavior : Nat → Option PyError)
    (st : RunState HttpPostPayload) : RunState HttpPostPayload × Option PyError :=
  s.toNotificator.send_notification_impl (s.payload_of message subject) behavior st

structure DiscordNotificator where
  webhook_url : String
  on_error_sleep_time : Nat := 120
deriving DecidableEq

def DiscordNotificator.headers : List (String × String) :=
  [("Content-Type", "application/json")]

def DiscordNotificator.default_subject_message : String :=
  "Python script Discord notification"

/-- `DiscordNotificator._format_subject`: Markdown bold plus a line break. -/
def DiscordNotificator.format_subject (subject_message : String) : String :=
  "**" ++ subject_message ++ "**\n"

def DiscordNotificator.toNotificator (d : DiscordNotificator) : Notificator :=
  ⟨d.on_error_sleep_time, "HTTPError"⟩

/-- The decorated subject prefixed to the message, as computed by
`DiscordNotificator.send_notification`. -/
def DiscordNotificator.formatted_message (message : String) (subject : Option String) : String :=
  let subject := match subject with
    | some s => s
    | none => DiscordNotificator.default_subject_message
  let subject := DiscordNotificator.format_subject subject
  subject ++ message

def DiscordNotificator.payload_of (d : DiscordNotificator) (message : String)
    (subject : Option String) : HttpPostPayload :=
  { url := d.webhook_url,
    data := json_dumps_text "content" (DiscordNotificator.formatted_message message subject),
    headers := DiscordNotificator.headers }

/-- `DiscordNotificator.send_notification` (notificator.py lines 422-442). -/
def DiscordNotificator.send_notification (d : DiscordNotificator) (message : String)
    (subject : Option String) (behavior : Nat → Option PyError)
    (st : RunState HttpPostPayload) : RunState HttpPostPayload × Option PyError :=
  d.toNotificator.send_notification_impl (d.payload_of message subject) behavior st

structure ChannelNotificator where
  channel_url : String
  on_error_sleep_time : Nat := 120
deriving DecidableEq

def ChannelNotificator.default_subject_message : String :=
  "Python script notification"

/-- `ChannelNotificator._format_subject`. -/
def ChannelNotificator.format_subject (subject_message : String) : String :=
  "**" ++ subject_message ++ "**\n"

def ChannelNotificator.toNotificator (c : ChannelNotificator) : Notificator :=
  ⟨c.on_error_sleep_time, "HTTPError"⟩

def ChannelNotificator.formatted_message (message : String) (subject : Option String) : String :=
  let subject := match subject with
    | some s => s
    | none => ChannelNotificator.default_subject_message
  let subject := ChannelNotificator.format_subject subject
  subject ++ message

def ChannelNotificator.payload_of (message : String) (subject : Option String) : MessagePayload :=
  { message := ChannelNotificator.formatted_message message subject }

/-- `ChannelNotificator.send_notification` (notificator.py lines 299-316). -/
def ChannelNotificator.send_notification (c : ChannelNotificator) (message : String)
    (subject : Option String) (behavior : Nat → Option PyError)
    (st : RunState MessagePayload) : RunState MessagePayload × Option PyError :=
  c.toNotificator.send_notification_impl (ChannelNotificator.payload_of message subject)
    behavior st

structure TeamsNotificator where
  webhook_url : String
  on_error_sleep_time : Nat := 120
deriving DecidableEq

def TeamsNotificator.default_subject_message : String :=
  "Python script Teams notification"

/-- `TeamsNotificator._format_subject`. -/
def TeamsNotificator.format_subject (subject_message : String) : String :=
  "**" ++ subject_message ++ "**\n"

/-- `TeamsNotificator.__init__` overrides `_raised_error_type` with
`pymsteams.TeamsWebhookException`. -/
def TeamsNotificator.toNotificator (t : TeamsNotificator) : Notificator :=
  ⟨t.on_error_sleep_time, "TeamsWebhookException"⟩

def TeamsNotificator.formatted_message (message : String) (subject : Option String) : String :=
  let subject := match subject with
    | some s => s
    | none => TeamsNotificator.default_subject_message
  let subject := TeamsNotificator.format_subject subject
  subject ++ message

def TeamsNotificator.payload_of (message : String) (subject : Option String) : MessagePayload :=
  { message := TeamsNotificator.formatted_message message subject }

/-- `TeamsNotificator.send_notification` (notificator.py lines 363-381).
One transport call corresponds to one `_wrapper_send` invocation. -/
def TeamsNotificator.send_notification (t : TeamsNotificator) (message : String)
    (subject : Option String) (behavior : Nat → Option PyError)
    (st : RunState MessagePayload) : RunState MessagePayload × Option PyError :=
  t.toNotificator.send_notification_impl (TeamsNotificator.payload_of message subject)
    behavior st

structure EmailNotificator where
  sender_email : String
  destination_email : String
  on_error_sleep_time : Nat := 120
deriving DecidableEq

def EmailNotificator.default_subject_message : String :=
  "Python script notification email"

/-- `EmailNotificator._format_subject` is a bare `pass`, i.e. returns
Python `None`. -/
def EmailNotificator.format_subject (_subject_message : String) : Option String :=
  none

/-- `EmailNotificator.__init__` overrides `_raised_error_type` with
`smtplib.SMTPRecipientsRefused`. -/
def EmailNotificator.toNotificator (e : EmailNotificator) : Notificator :=
  ⟨e.on_error_sleep_time, "SMTPRecipientsRefused"⟩

/-- The SMTP content string built by `EmailNotificator.send_notification`:
`'Subject: %s\n\n%s' % (subject, message)` after resolving the default. -/
def EmailNotificator.content (message : String) (subject : Option String) : String :=
  let subject := match subject with
    | some s => s
    | none => EmailNotificator.default_subject_message
  "Subject: " ++ subject ++ "\n\n" ++ message

def EmailNotificator.payload_of (e : EmailNotificator) (message : String)
    (subject : Option String) : EmailPayload :=
  { from_addr := e.sender_email,
    to_addrs := e.destination_email,
    msg := EmailNotificator.content message subject }

/-- `EmailNotificator.send_notification` (notificator.py lines 242-257). -/
def EmailNotificator.send_notification (e : EmailNotificator) (message : String)
    (subject : Option String) (behavior : Nat → Option PyError)
    (st : RunState EmailPayload) : RunState EmailPayload × Option PyError :=
  e.toNotificator.send_notification_impl (e.payload_of message subject) behavior st

/-! ### Construction-time library availability

The module imports `requests`, `notify_run` and `pymsteams` inside
`try`/`except ImportError`, binding the name to Python `None` when the
package is missing.  `Notificator.__init__` then evaluates
`requests.exceptions.HTTPError` unconditionally, and each concrete
`__init__` calls it via `super().__init__` before its own `... is None`
check. -/

/-- Which optional third-party packages imported successfully. -/
structure Libs where
  requests : Bool
  notify_run : Bool
  pymsteams : Bool
deriving DecidableEq

/-- The exception escaping a constructor, if any. -/
inductive InitErr where
  /-- The `AttributeError` raised by `Notificator.__init__` when it
  evaluates `requests.exceptions.HTTPError` while `requests` is `None`. -/
  | attributeError : InitErr
  /-- The explicit `ImportError` a concrete constructor raises when its own
  package is `None`. -/
  | importError (package : String) : InitErr
deriving DecidableEq

/-- `Notificator.__init__` (notificator.py lines 35-41): dereferences
`requests.exceptions.HTTPError`, which raises `AttributeError` when the
`requests` import failed. -/
def base_init (libs : Libs) : Except InitErr Unit :=
  if libs.requests then .ok () else .error .attributeError

/-- `SlackNotificator.__init__` (lines 133-142): base init first, then the
`requests is None` check raising `ImportError`. -/
def slack_init (libs : Libs) : Except InitErr Unit := do
  base_init libs
  if libs.requests then .ok () else .error (.importError "requests")

/-- `DiscordNotificator.__init__` (lines 404-413). -/
def discord_init (libs : Libs) : Except InitErr Unit := do
  base_init libs
  if libs.requests then .ok () else .error (.importError "request")

/-- `ChannelNotificator.__init__` (lines 283-291): base init first, then
the `ChannelNotify is None` check raising `ImportError`. -/
def channel_init (libs : Libs) : Except InitErr Unit := do
  base_init libs
  if libs.notify_run then .ok () else .error (.importError "notify_run")

/-- `TeamsNotificator.__init__` (lines 340-350): base init first, then the
`pymsteams is None` check raising `ImportError`. -/
def teams_init (libs : Libs) : Except InitErr Unit := do
  base_init libs
  if libs.pymsteams then .ok () else .error (.importError "pymsteams")

/-- `EmailNotificator.__init__` (lines 214-234): base init first; the class
has no optional-package check of its own (`smtplib` is standard library). -/
def email_init (libs : Libs) : Except InitErr Unit := do
  base_init libs
  .ok ()

/-! ### Error formatting and `send_notification_error` -/

/-- `Notificator._parse_error` (lines 92-110).  The args of the caught
exception are modelled as a list of strings; `error.args[0]` on an empty
tuple raises `IndexError`.  `error_type` is the f-string rendering of
`type(error)`. -/
def Notificator.parse_error (error_type : String) (args : List String) :
    Except PyError String :=
  match args with
  | [] => .error { kind := "IndexError", msg := "tuple index out of range" }
  | m :: _ =>
    .ok ("An error of type " ++ error_type ++ " occurred. An the error message is " ++ m)

/-- `Notificator.send_notification_error` (lines 68-77), observed through
the Slack channel: parse the error, then `send_notification` with the
parsed message and no explicit subject.  An exception raised by
`_parse_error` escapes before any transport call. -/
def SlackNotificator.send_notification_error (s : SlackNotificator) (error_type : String)
    (args : List String) (behavior : Nat → Option PyError)
    (st : RunState HttpPostPayload) : RunState HttpPostPayload × Option PyError :=
  match Notificator.parse_error error_type args with
  | .error e => (st, some e)
  | .ok m => s.send_notification m none behavior st

/-! ### The failure-notifying wrapper `notification_on_fail` -/

/-- What `sys.exc_info()` and `traceback.format_exc()` yield inside the
wrapper's `except` block: the f-string rendering of the exception type, the
f-string rendering of the exception value, and the formatted traceback. -/
structure ScriptError where
  exception_type : String
  value : String
  traceback_text : String
deriving DecidableEq

/-- The message selection of `notification_on_fail` (fail_decorator.py
lines 46-53).  `verbose_level` is already `str()`-converted. -/
def failMessage (verbose_level : String)
    (exception_type value traceback_text : String) : String :=
  if verbose_level = "1" then
    "An error occurred of type " ++ exception_type ++ " when running the script."
  else if verbose_level = "2" then
    "An error occurred when running the script. The error message is: " ++ value
  else
    traceback_text

/-- Outcome of calling a Python function: it returned a value (`none`
standing for Python `None`) or an exception escaped. -/
inductive CallResult (α : Type) where
  | returned (v : Option α) : CallResult α
  | raised (e : ScriptError) : CallResult α
deriving DecidableEq

/-- One call to the function produced by `notification_on_fail`: the
messages passed to `notificator.send_notification` and the call's outcome. -/
structure DecoratedOutcome (α : Type) where
  notifications : List String
  result : CallResult α
deriving DecidableEq

/-- `notification_on_fail(notificator, verbose_level)` applied to a work
function and called (fail_decorator.py lines 41-56).  The work function
either returns a value or raises a `ScriptError`.  On an exception the
`except` block sends one notification and then falls off the end of
`decorated`, so the call returns Python `None`; nothing is re-raised. -/
def notification_on_fail_call {α : Type} (verbose_level : String)
    (work : Except ScriptError α) : DecoratedOutcome α :=
  match work with
  | .ok v => { notifications := [], result := .returned (some v) }
  | .error e =>
    let message := failMessage verbose_level e.exception_type e.value e.traceback_text
    { notifications := [message], result := .returned none }

/-! ### Substring containment (used to state C7) -/

def isPrefixL : List Char → List Char → Bool
  | [], _ => true
  | _ :: _, [] => false
  | a :: n, b :: h => a == b && isPrefixL n h

def containsL (n : List Char) : List Char → Bool
  | [] => isPrefixL n []
  | b :: h => isPrefixL n (b :: h) || containsL n h

/-- Whether `needle` occurs contiguously inside `hay`. -/
def strContains (hay needle : String) : Bool :=
  containsL needle.toList hay.toList

end Notif

namespace Notif

/-- C1: if the bound transport call raises the channel's designated
transient-error kind on every attempt, `send_notification` makes exactly
two transport calls, emits exactly two warnings, and returns normally with
no exception escaping. -/
theorem C1_retry_exhaustion (P : Type) (nf : Notificator) (payload : P)
    (behavior : Nat → Option PyError)
    (h : ∀ n, ∃ e, behavior n = some e ∧ e.kind = nf.raised_error_type) :
    (nf.send_notification_impl payload behavior RunState.empty).1.calls.length = 2 ∧
    (nf.send_notification_impl payload behavior RunState.empty).1.warnings.length = 2 ∧
    (nf.send_notification_impl payload behavior RunState.empty).2 = none := by
  obtain ⟨e0, he0, hk0⟩ := h 0
  obtain ⟨e1, he1, hk1⟩ := h 1
  simp [Notificator.send_notification_impl, RunState.empty, he0, he1, hk0, hk1]

/-- C3: with no subject every channel prefixes the decorated default
subject to the message; with an explicit subject it prefixes the decorated
subject; the email channel instead uses the (resolved) subject verbatim as
the SMTP header, the content being `Subject: S`, a blank line, and the
body. -/
theorem C3_subject_formatting (msg S : String) :
    SlackNotificator.formatted_message msg none =
      SlackNotificator.format_subject SlackNotificator.default_subject_message ++ msg ∧
    SlackNotificator.formatted_message msg (some S) =
      SlackNotificator.format_subject S ++ msg ∧
    DiscordNotificator.formatted_message msg none =
      DiscordNotificator.format_subject DiscordNotificator.default_subject_message ++ msg ∧
    DiscordNotificator.formatted_message msg (some S) =
      DiscordNotificator.format_subject S ++ msg ∧
    ChannelNotificator.formatted_message msg none =
      ChannelNotificator.format_subject ChannelNotificator.default_subject_message ++ msg ∧
    ChannelNotificator.formatted_message msg (some S) =
      ChannelNotificator.format_subject S ++ msg ∧
    TeamsNotificator.formatted_message msg none =
      TeamsNotificator.format_subject TeamsNotificator.default_subject_message ++ msg ∧
    TeamsNotificator.formatted_message msg (some S) =
      TeamsNotificator.format_subject S ++ msg ∧
    EmailNotificator.content msg none =
      "Subject: " ++ EmailNotificator.default_subject_message ++ "\n\n" ++ msg ∧
    EmailNotificator.content msg (some S) = "Subject: " ++ S ++ "\n\n" ++ msg :=
  ⟨rfl, rfl, rfl, rfl, rfl, rfl, rfl, rfl, rfl, rfl⟩

/-- C4: if the transport call raises the designated transient-error kind on
the first attempt and succeeds on the second, exactly two transport calls
occur, exactly one warning is emitted, that warning contains the configured
sleep duration, and the notificator sleeps exactly that duration between
the two attempts. -/
theorem C4_retry_once_then_success (P : Type) (nf : Notificator) (payload : P)
    (behavior : Nat → Option PyError) (e : PyError)
    (h0 : behavior 0 = some e) (hk : e.kind = nf.raised_error_type)
    (h1 : behavior 1 = none) :
    (nf.send_notification_impl payload behavior RunState.empty).1.calls.length = 2 ∧
    (nf.send_notification_impl payload behavior RunState.empty).1.warnings =
      [firstWarning nf.on_error_sleep_time] ∧
    (∃ a b, firstWarning nf.on_error_sleep_time =
      a ++ toString nf.on_error_sleep_time ++ b) ∧
    (nf.send_notification_impl payload behavior RunState.empty).1.sleeps =
      [nf.on_error_sleep_time] ∧
    (nf.send_notification_impl payload behavior RunState.empty).2 = none := by
  refine ⟨?_, ?_,
    ⟨"Error when trying to send notification. Will retry in ", " seconds.", rfl⟩, ?_, ?_⟩ <;>
  simp [Notificator.send_notification_impl, RunState.empty, h0, h1, hk]

/-- Witness for C4: transient failure on the first attempt, success on the
second, at concrete values. -/
theorem C4_retry_once_then_success_witness :
    ((⟨120, "HTTPError"⟩ : Notificator).send_notification_impl ()
        (fun n => match n with | 0 => some ⟨"HTTPError", "boom"⟩ | _ => none)
        RunState.empty).1.calls.length = 2 ∧
    ((⟨120, "HTTPError"⟩ : Notificator).send_notification_impl ()
        (fun n => match n with | 0 => some ⟨"HTTPError", "boom"⟩ | _ => none)
        RunState.empty).1.warnings = [firstWarning 120] ∧
    (∃ a b, firstWarning 120 = a ++ toString 120 ++ b) ∧
    ((⟨120, "HTTPError"⟩ : Notificator).send_notification_impl ()
        (fun n => match n with | 0 => some ⟨"HTTPError", "boom"⟩ | _ => none)
        RunState.empty).1.sleeps = [120] ∧
    ((⟨120, "HTTPError"⟩ : Notificator).send_notification_impl ()
        (fun n => match n with | 0 => some ⟨"HTTPError", "boom"⟩ | _ => none)
        RunState.empty).2 = none :=
  C4_retry_once_then_success Unit ⟨120, "HTTPError"⟩ ()
    (fun n => match n with | 0 => some ⟨"HTTPError", "boom"⟩ | _ => none)
    ⟨"HTTPError", "boom"⟩ rfl rfl rfl

/-- C5: an error of a kind other than the designated transient kind is
never caught by the retry routine: raised on the first attempt it escapes
with a single transport call and no warning and no sleep; raised on the
second attempt it escapes with two transport calls and only the one warning
caused by the first, transient, failure. -/
theorem C5_unclassified_propagates (P : Type) (nf : Notificator) (payload : P)
    (behavior : Nat → Option PyError) (e : PyError) :
    (behavior 0 = some e → e.kind ≠ nf.raised_error_type →
      (nf.send_notification_impl payload behavior RunState.empty).2 = some e ∧
      (nf.send_notification_impl payload behavior RunState.empty).1.calls.length = 1 ∧
      (nf.send_notification_impl payload behavior RunState.empty).1.warnings = [] ∧
      (nf.send_notification_impl payload behavior RunState.empty).1.sleeps = []) ∧
    (∀ e0, behavior 0 = some e0 → e0.kind = nf.raised_error_type →
      behavior 1 = some e → e.kind ≠ nf.raised_error_type →
      (nf.send_notification_impl payload behavior RunState.empty).2 = some e ∧
      (nf.send_notification_impl payload behavior RunState.empty).1.calls.length = 2 ∧
      (nf.send_notification_impl payload behavior RunState.empty).1.warnings =
        [firstWarning nf.on_error_sleep_time]) := by
  constructor
  · intro h0 hk
    simp [Notificator.send_notification_impl, RunState.empty, h0, hk]
  · intro e0 h0 hk0 h1 hk
    simp [Notificator.send_notification_impl, RunState.empty, h0, hk0, h1, hk]

/-- Witness for C5: a `ValueError` raised by the transport escapes a
notificator whose designated kind is `HTTPError`. -/
theorem C5_unclassified_propagates_witness :
    ((⟨120, "HTTPError"⟩ : Notificator).send_notification_impl ()
        (fun _ => some ⟨"ValueError", "boom"⟩) RunState.empty).2 =
      some ⟨"ValueError", "boom"⟩ ∧
    ((⟨120, "HTTPError"⟩ : Notificator).send_notification_impl ()
        (fun _ => some ⟨"ValueError", "boom"⟩) RunState.empty).1.calls.length = 1 ∧
    ((⟨120, "HTTPError"⟩ : Notificator).send_notification_impl ()
        (fun _ => some ⟨"ValueError", "boom"⟩) RunState.empty).1.warnings = [] ∧
    ((⟨120, "HTTPError"⟩ : Notificator).send_notification_impl ()
        (fun _ => some ⟨"ValueError", "boom"⟩) RunState.empty).1.sleeps = [] :=
  (C5_unclassified_propagates Unit ⟨120, "HTTPError"⟩ ()
      (fun _ => some ⟨"ValueError", "boom"⟩) ⟨"ValueError", "boom"⟩).1 rfl (by decide)

/-- C8: with an always-succeeding transport, calling `send_notification`
twice with identical arguments issues exactly two transport calls carrying
identical payloads (no caching or suppression), on every channel. -/
theorem C8_two_sends_identical (behavior : Nat → Option PyError)
    (h : ∀ n, behavior n = none) :
    (∀ (s : SlackNotificator) (m : String) (subj : Option String),
      (s.send_notification m subj behavior
          (s.send_notification m subj behavior RunState.empty).1).1.calls =
        [s.payload_of m subj, s.payload_of m subj] ∧
      (s.send_notification m subj behavior RunState.empty).2 = none ∧
      (s.send_notification m subj behavior
          (s.send_notification m subj behavior RunState.empty).1).2 = none) ∧
    (∀ (d : DiscordNotificator) (m : String) (subj : Option String),
      (d.send_notification m subj behavior
          (d.send_notification m subj behavior RunState.empty).1).1.calls =
        [d.payload_of m subj, d.payload_of m subj] ∧
      (d.send_notification m subj behavior RunState.empty).2 = none ∧
      (d.send_notification m subj behavior
          (d.send_notification m subj behavior RunState.empty).1).2 = none) ∧
    (∀ (c : ChannelNotificator) (m : String) (subj : Option String),
      (c.send_notification m subj behavior
          (c.send_notification m subj behavior RunState.empty).1).1.calls =
        [ChannelNotificator.payload_of m subj, ChannelNotificator.payload_of m subj] ∧
      (c.send_notification m subj behavior RunState.empty).2 = none ∧
      (c.send_notification m subj behavior
          (c.send_notification m subj behavior RunState.empty).1).2 = none) ∧
    (∀ (t : TeamsNotificator) (m : String) (subj : Option String),
      (t.send_notification m subj behavior
          (t.send_notification m subj behavior RunState.empty).1).1.calls =
        [TeamsNotificator.payload_of m subj, TeamsNotificator.payload_of m subj] ∧
      (t.send_notification m subj behavior RunState.empty).2 = none ∧
      (t.send_notification m subj behavior
          (t.send_notification m subj behavior RunState.empty).1).2 = none) ∧
    (∀ (e : EmailNotificator) (m : String) (subj : Option String),
      (e.send_notification m subj behavior
          (e.send_notification m subj behavior RunState.empty).1).1.calls =
        [e.payload_of m subj, e.payload_of m subj] ∧
      (e.send_notification m subj behavior RunState.empty).2 = none ∧
      (e.send_notification m subj behavior
          (e.send_notification m subj behavior RunState.empty).1).2 = none) := by
  refine ⟨?_, ?_, ?_, ?_, ?_⟩ <;>
  · intro x m subj
    simp [SlackNotificator.send_notification, DiscordNotificator.send_notification,
      ChannelNotificator.send_notification, TeamsNotificator.send_notification,
      EmailNotificator.send_notification, Notificator.send_notification_impl,
      RunState.empty, h]

/-- Witness for C8: two Slack sends with identical arguments and an
always-succeeding transport. -/
theorem C8_two_sends_identical_witness :
    ((⟨"hook", 120⟩ : SlackNotificator).send_notification "msg" none (fun _ => none)
        ((⟨"hook", 120⟩ : SlackNotificator).send_notification "msg" none (fun _ => none)
          RunState.empty).1).1.calls =
      [(⟨"hook", 120⟩ : SlackNotificator).payload_of "msg" none,
       (⟨"hook", 120⟩ : SlackNotificator).payload_of "msg" none] ∧
    ((⟨"hook", 120⟩ : SlackNotificator).send_notification "msg" none (fun _ => none)
        RunState.empty).2 = none ∧
    ((⟨"hook", 120⟩ : SlackNotificator).send_notification "msg" none (fun _ => none)
        ((⟨"hook", 120⟩ : SlackNotificator).send_notification "msg" none (fun _ => none)
          RunState.empty).1).2 = none :=
  (C8_two_sends_identical (fun _ => none) (fun _ => rfl)).1 ⟨"hook", 120⟩ "msg" none

/-- Witness for C1 at a concrete always-failing transport. -/
theorem C1_retry_exhaustion_witness :
    ((⟨120, "HTTPError"⟩ : Notificator).send_notification_impl ()
        (fun _ => some ⟨"HTTPError", "boom"⟩) RunState.empty).1.calls.length = 2 ∧
    ((⟨120, "HTTPError"⟩ : Notificator).send_notification_impl ()
        (fun _ => some ⟨"HTTPError", "boom"⟩) RunState.empty).1.warnings.length = 2 ∧
    ((⟨120, "HTTPError"⟩ : Notificator).send_notification_impl ()
        (fun _ => some ⟨"HTTPError", "boom"⟩) RunState.empty).2 = none :=
  C1_retry_exhaustion Unit ⟨120, "HTTPError"⟩ () (fun _ => some ⟨"HTTPError", "boom"⟩)
    (fun _ => ⟨⟨"HTTPError", "boom"⟩, rfl, rfl⟩)

/-- C2: evaluating the wrapper at a work function that raises a
`ValueError` shows the code's actual behaviour: exactly one
`send_notification` call is made, but the wrapped call then returns Python
`None` — the caught error is swallowed, never re-raised, contradicting the
claim and the repository's own tests. -/
theorem C2_wrapper_swallows_error :
    notification_on_fail_call "3"
      (Except.error
        { exception_type := "ValueError", value := "An error message",
          traceback_text := "Traceback text for ValueError" } :
        Except ScriptError Unit) =
      { notifications := ["Traceback text for ValueError"],
        result := CallResult.returned none } := rfl

/-- C6 fails as stated: with `requests` absent but `notify_run` present,
`ChannelNotificator`'s own required library is available and yet
construction does not succeed — it fails with the base constructor's
`AttributeError`. -/
theorem C6_counterexample :
    (Libs.mk false true false).notify_run = true ∧
    channel_init (Libs.mk false true false) ≠ .ok () ∧
    channel_init (Libs.mk false true false) = .error .attributeError := by
  refine ⟨rfl, ?_, rfl⟩
  simp [channel_init, base_init, Bind.bind, Except.bind]

/-- C6 (amended): construction outcome is decided entirely at construction
time, never deferred to send time: when `requests` is absent every channel
constructor fails with the base constructor's `AttributeError` (before the
channel-specific check runs, so even channels whose own package is present
fail); when `requests` is present, a channel whose own package is missing
fails with its `ImportError`, and otherwise construction succeeds. -/
theorem C6_amended_fail_fast (libs : Libs) :
    slack_init libs = (if libs.requests then .ok () else .error .attributeError) ∧
    discord_init libs = (if libs.requests then .ok () else .error .attributeError) ∧
    email_init libs = (if libs.requests then .ok () else .error .attributeError) ∧
    channel_init libs =
      (if libs.requests then
        (if libs.notify_run then .ok () else .error (.importError "notify_run"))
       else .error .attributeError) ∧
    teams_init libs =
      (if libs.requests then
        (if libs.pymsteams then .ok () else .error (.importError "pymsteams"))
       else .error .attributeError) := by
  rcases libs with ⟨r, n, p⟩
  cases r <;> cases n <;> cases p <;>
    simp [slack_init, discord_init, email_init, channel_init, teams_init, base_init,
      Bind.bind, Except.bind]

/-- C7 fails as stated: at verbosity tier 2 the notification text carries
the error message but not the error's type name. -/
theorem C7_counterexample :
    failMessage "2" "ValueError" "boom" "Traceback text" =
      "An error occurred when running the script. The error message is: boom" ∧
    strContains (failMessage "2" "ValueError" "boom" "Traceback text") "ValueError" =
      false :=
  ⟨rfl, by decide⟩

/-- C7 (amended): tier 1 yields a fixed sentence carrying the error's type
only, tier 2 yields a fixed sentence carrying the error message only (not
the type name), and tier 3 yields the full stack trace text. -/
theorem C7_amended_verbosity_tiers (exception_type value traceback_text : String) :
    failMessage "1" exception_type value traceback_text =
      "An error occurred of type " ++ exception_type ++ " when running the script." ∧
    failMessage "2" exception_type value traceback_text =
      "An error occurred when running the script. The error message is: " ++ value ∧
    failMessage "3" exception_type value traceback_text = traceback_text :=
  ⟨rfl, rfl, rfl⟩

/-- C9: `send_notification_error` reads `error.args[0]`; with an empty args
tuple `_parse_error` raises `IndexError`, which escapes
`send_notification_error` before any transport call, leaving the trace
unchanged; with at least one arg it sends exactly the parsed message with
no explicit subject. -/
theorem C9_parse_error_needs_args (s : SlackNotificator) (error_type : String)
    (args : List String) (behavior : Nat → Option PyError)
    (st : RunState HttpPostPayload) :
    (args = [] →
      Notificator.parse_error error_type args =
        .error { kind := "IndexError", msg := "tuple index out of range" } ∧
      s.send_notification_error error_type args behavior st =
        (st, some { kind := "IndexError", msg := "tuple index out of range" })) ∧
    (∀ m rest, args = m :: rest →
      Notificator.parse_error error_type args =
        .ok ("An error of type " ++ error_type ++ " occurred. An the error message is " ++ m) ∧
      s.send_notification_error error_type args behavior st =
        s.send_notification
          ("An error of type " ++ error_type ++ " occurred. An the error message is " ++ m)
          none behavior st) := by
  constructor
  · rintro rfl
    exact ⟨rfl, rfl⟩
  · rintro m rest rfl
    exact ⟨rfl, rfl⟩

/-- Witness for C9: an exception constructed with an empty argument tuple
makes `send_notification_error` itself raise `IndexError` with no transport
call. -/
theorem C9_parse_error_needs_args_witness :
    Notificator.parse_error "ValueError" [] =
      .error { kind := "IndexError", msg := "tuple index out of range" } ∧
    (⟨"hook", 120⟩ : SlackNotificator).send_notification_error "ValueError" []
        (fun _ => none) RunState.empty =
      (RunState.empty, some { kind := "IndexError", msg := "tuple index out of range" }) :=
  (C9_parse_error_needs_args ⟨"hook", 120⟩ "ValueError" [] (fun _ => none)
      RunState.empty).1 rfl

/-- C10: when the `requests` import failed, every channel's construction —
including email, channel and teams, whose own required packages may well be
present — fails with the base constructor's `AttributeError`, i.e. at base
initialization, before any channel-specific library check. -/
theorem C10_requests_absent_all_inits_fail (libs : Libs) (h : libs.requests = false) :
    slack_init libs = .error .attributeError ∧
    discord_init libs = .error .attributeError ∧
    email_init libs = .error .attributeError ∧
    channel_init libs = .error .attributeError ∧
    teams_init libs = .error .attributeError := by
  simp [slack_init, discord_init, email_init, channel_init, teams_init, base_init, h,
    Bind.bind, Except.bind]

/-- Witness for C10: `requests` absent while `notify_run` and `pymsteams`
are both present. -/
theorem C10_requests_absent_all_inits_fail_witness :
    slack_init (Libs.mk false true true) = .error .attributeError ∧
    discord_init (Libs.mk false true true) = .error .attributeError ∧
    email_init (Libs.mk false true true) = .error .attributeError ∧
    channel_init (Libs.mk false true true) = .error .attributeError ∧
    teams_init (Libs.mk false true true) = .error .attributeError :=
  C10_requests_absent_all_inits_fail (Libs.mk false true true) rfl

end Notif
